import Mathlib

/-!
Shallow embedding of the pangolin-operator reconciliation engine.

The definitions below are translated from the Go sources of the operator:
the four reconcilers (PangolinOrganization, PangolinTunnel, PangolinResource,
PangolinBinding), their shared status/condition writing discipline, and the
pure parts of the Pangolin control-plane client.  External effects (store
reads/writes, HTTP calls) are modelled by passing the call's response in as an
oracle value of type `Except String _` and by recording the control-plane
calls a convergence run issues as a `List ApiCall`.  `metav1.Time` is
modelled as a `Nat` (the value of `time.Now()` at the write), and
`time.Minute` in a `ctrl.Result` as 60 seconds.
-/

namespace Pangolin

/-- Kubernetes `metav1.Condition` as used by the controllers.  The Go field
`Type` is `condType` here; `Status` is a `Bool` (`true` = `ConditionTrue`). -/
structure MetaCondition where
  condType : String
  status : Bool
  reason : String
  message : String
  lastTransitionTime : Nat
  observedGeneration : Int
  deriving DecidableEq

/-- The `ctrl.Result` a reconcile invocation returns: `requeueAfter` in
seconds, `0` meaning the zero result `ctrl.Result{}` (no automatic
re-check). -/
structure ReconcileResult where
  requeueAfter : Nat
  deriving DecidableEq

/-- v1alpha1.LocalObjectReference. -/
structure LocalObjectReference where
  name : String
  deriving DecidableEq

/-- Domain entry of the organization's cached inventory (v1alpha1.Domain and
pangolin.Domain share these fields; the organization controller copies them
verbatim). -/
structure Domain where
  domainID : String
  baseDomain : String
  verified : Bool
  domainType : String
  failed : Bool
  tries : Int
  configManaged : Bool
  deriving DecidableEq

/-- pangolin.Organization (list-organizations response entry). -/
structure Organization where
  orgID : String
  name : String
  subnet : String
  deriving DecidableEq

/-- pangolin.Site as consumed by the tunnel controller (`site.SiteID`,
`site.NiceID`, `site.Name`, `site.Type`, `site.Subnet`, `site.Address`,
`site.Online`, `site.Endpoint`).  The Go field `Type` is `siteType` here. -/
structure Site where
  siteID : Int
  niceID : String
  name : String
  siteType : String
  subnet : String
  address : String
  online : Bool
  endpoint : String
  deriving DecidableEq

/-- pangolin.Resource: the create-resource response, with the two possible id
fields (`id` string and `resourceId` number) the client normalizes between. -/
structure Resource where
  id : String
  resourceID : Int
  name : String
  deriving DecidableEq

/-- pangolin.ResourceCreateSpec. -/
structure ResourceCreateSpec where
  name : String
  siteID : Int
  http : Bool
  protocol : String
  subdomain : String
  domainID : String
  proxyPort : Int
  enableProxy : Bool
  deriving DecidableEq

/-- pangolin.Target. -/
structure Target where
  id : String
  ip : String
  port : Int
  method : String
  enabled : Bool
  deriving DecidableEq

/-- pangolin.TargetCreateSpec. -/
structure TargetCreateSpec where
  ip : String
  port : Int
  method : String
  enabled : Bool
  deriving DecidableEq

/-- v1alpha1.HTTPConfig: fields as used by the resource controller
(`Subdomain`, `DomainID`, `DomainName`). -/
structure HTTPConfig where
  subdomain : String
  domainID : String
  domainName : String
  deriving DecidableEq

/-- v1alpha1.ProxyConfig: fields as used by the controllers (`ProxyPort`,
`EnableProxy`).  `EnableProxy` is a `*bool` in Go, dereferenced without a nil
check by the resource controller; it is kept optional here and the
dereference is modelled as `getD false`. -/
structure ProxyConfig where
  proxyPort : Int
  enableProxy : Option Bool
  deriving DecidableEq

/-- v1alpha1.TargetConfig (`IP`, `Port`, `Method`). -/
structure TargetConfig where
  ip : String
  port : Int
  method : String
  deriving DecidableEq

/-- Org spec `Defaults` block: the explicitly configured default-domain
selector. -/
structure OrganizationDefaults where
  defaultDomain : String
  deriving DecidableEq

/-- PangolinOrganizationSpec (the fields the reconciliation logic reads). -/
structure PangolinOrganizationSpec where
  organizationID : String
  defaults : Option OrganizationDefaults
  deriving DecidableEq

/-- PangolinOrganizationStatus. -/
structure PangolinOrganizationStatus where
  organizationID : String
  organizationName : String
  subnet : String
  bindingMode : String
  domains : List Domain
  defaultDomainID : String
  status : String
  conditions : List MetaCondition
  observedGeneration : Int
  deriving DecidableEq

/-- PangolinOrganization object (metadata reduced to name and generation). -/
structure PangolinOrganization where
  name : String
  generation : Int
  spec : PangolinOrganizationSpec
  status : PangolinOrganizationStatus
  deriving DecidableEq

/-- PangolinTunnelSpec. -/
structure PangolinTunnelSpec where
  organizationRef : LocalObjectReference
  siteName : String
  siteType : String
  siteID : Option Int
  niceID : String
  deriving DecidableEq

/-- PangolinTunnelStatus. -/
structure PangolinTunnelStatus where
  siteID : Int
  niceID : String
  siteName : String
  siteType : String
  subnet : String
  address : String
  online : Bool
  endpoint : String
  bindingMode : String
  status : String
  conditions : List MetaCondition
  observedGeneration : Int
  deriving DecidableEq

/-- PangolinTunnel object. -/
structure PangolinTunnel where
  name : String
  generation : Int
  spec : PangolinTunnelSpec
  status : PangolinTunnelStatus
  deriving DecidableEq

/-- PangolinResourceSpec: fields as used by the resource and binding
controllers (`TunnelRef`, `Name`, `Protocol`, `ResourceID`, `HTTPConfig`,
`ProxyConfig`, `Target`, `Enabled`).  `Enabled` is a `*bool` dereferenced
without a nil check when creating a target; it is kept optional here. -/
structure PangolinResourceSpec where
  tunnelRef : LocalObjectReference
  name : String
  protocol : String
  resourceID : String
  httpConfig : Option HTTPConfig
  proxyConfig : Option ProxyConfig
  target : TargetConfig
  enabled : Option Bool
  deriving DecidableEq

/-- PangolinResourceStatus. -/
structure PangolinResourceStatus where
  resourceID : String
  targetID : String
  bindingMode : String
  resolvedDomainID : String
  fullDomain : String
  url : String
  proxyEndpoint : String
  status : String
  conditions : List MetaCondition
  observedGeneration : Int
  deriving DecidableEq

/-- PangolinResource object. -/
structure PangolinResource where
  name : String
  generation : Int
  spec : PangolinResourceSpec
  status : PangolinResourceStatus
  deriving DecidableEq

/-- v1alpha1.ServiceReference. -/
structure ServiceReference where
  name : String
  namespaceName : String
  deriving DecidableEq

/-- PangolinBindingSpec. -/
structure PangolinBindingSpec where
  serviceRef : ServiceReference
  organizationRef : LocalObjectReference
  tunnelRef : Option LocalObjectReference
  protocol : String
  servicePort : Int
  httpConfig : Option HTTPConfig
  proxyConfig : Option ProxyConfig
  autoUpdateTargets : Option Bool
  deriving DecidableEq

/-- PangolinBindingStatus. -/
structure PangolinBindingStatus where
  generatedResourceName : String
  url : String
  proxyEndpoint : String
  serviceEndpoints : List String
  status : String
  conditions : List MetaCondition
  observedGeneration : Int
  deriving DecidableEq

/-- PangolinBinding object. -/
structure PangolinBinding where
  name : String
  generation : Int
  spec : PangolinBindingSpec
  status : PangolinBindingStatus
  deriving DecidableEq

/-- corev1.Service, reduced to the field the binding controller reads. -/
structure Service where
  clusterIP : String
  deriving DecidableEq

/-- A subset of a corev1.Endpoints object: the address IPs. -/
structure EndpointSubset where
  addresses : List String
  deriving DecidableEq

/-- Control-plane calls a convergence run can issue. -/
inductive ApiCall where
  | getSiteByID (siteID : Int)
  | getSiteByNiceID (orgID : String) (niceID : String)
  | createSite (orgID : String) (name : String) (siteType : String)
  | createResource (orgID : String) (siteID : String) (spec : ResourceCreateSpec)
  | createTarget (resourceID : String) (spec : TargetCreateSpec)
  deriving DecidableEq

/-- Whether a call is a create-site call. -/
def ApiCall.isCreateSite : ApiCall → Bool
  | .createSite .. => true
  | _ => false

/-- Whether a call is a create-resource call. -/
def ApiCall.isCreateResource : ApiCall → Bool
  | .createResource .. => true
  | _ => false

/-- Whether a call is a create-target call. -/
def ApiCall.isCreateTarget : ApiCall → Bool
  | .createTarget .. => true
  | _ => false

/-- Result of a declarative-store Get: found, IsNotFound, or another error. -/
inductive GetResult (α : Type) where
  | found (a : α)
  | notFound
  | err (e : String)

/-! ## Shared status/condition writing -/

/-- The condition-upsert loop shared verbatim by `updateOrganizationStatus`,
`updateResourceStatus` and `updateBindingStatus`: find the first condition of
type "Ready"; if found, keep its `lastTransitionTime` when the boolean status
is unchanged and replace it; otherwise append the new condition.  `newCond`
arrives carrying `lastTransitionTime = now`. -/
def upsertReadyCondition : List MetaCondition → MetaCondition → List MetaCondition
  | [], newCond => [newCond]
  | c :: rest, newCond =>
    if c.condType == "Ready" then
      (if c.status != newCond.status then newCond
       else { newCond with lastTransitionTime := c.lastTransitionTime }) :: rest
    else
      c :: upsertReadyCondition rest newCond

/-- First condition with the given type (the lookup the upsert loop and the
claims use). -/
def findCondition : List MetaCondition → String → Option MetaCondition
  | [], _ => none
  | c :: rest, t => if c.condType == t then some c else findCondition rest t

/-- The Ready condition the three upserting reconcilers build before the
upsert (`conditionStatus` is `ConditionTrue` unless the written status string
differs from "Ready"). -/
def mkReadyCondition (statusStr message : String) (gen : Int) (now : Nat) : MetaCondition :=
  { condType := "Ready"
    status := statusStr == "Ready"
    reason := if statusStr == "Ready" then "ReconcileSuccess" else "ReconcileError"
    message := message
    lastTransitionTime := now
    observedGeneration := gen }

/-- PangolinOrganizationReconciler.updateOrganizationStatus: stamp
`status.status` and `observedGeneration`, upsert the Ready condition, then
requeue after one minute unless the written status is "Ready". -/
def updateOrganizationStatus (org : PangolinOrganization) (statusStr message : String)
    (now : Nat) : PangolinOrganization × ReconcileResult :=
  let newCond := mkReadyCondition statusStr message org.generation now
  let org := { org with status := { org.status with
    status := statusStr
    observedGeneration := org.generation
    conditions := upsertReadyCondition org.status.conditions newCond } }
  (org, if statusStr != "Ready" then { requeueAfter := 60 } else { requeueAfter := 0 })

/-- PangolinResourceReconciler.updateResourceStatus (same body as the
organization variant, acting on a PangolinResource). -/
def updateResourceStatus (resource : PangolinResource) (statusStr message : String)
    (now : Nat) : PangolinResource × ReconcileResult :=
  let newCond := mkReadyCondition statusStr message resource.generation now
  let resource := { resource with status := { resource.status with
    status := statusStr
    observedGeneration := resource.generation
    conditions := upsertReadyCondition resource.status.conditions newCond } }
  (resource, if statusStr != "Ready" then { requeueAfter := 60 } else { requeueAfter := 0 })

/-- PangolinBindingReconciler.updateBindingStatus (same body again, acting on
a PangolinBinding). -/
def updateBindingStatus (binding : PangolinBinding) (statusStr message : String)
    (now : Nat) : PangolinBinding × ReconcileResult :=
  let newCond := mkReadyCondition statusStr message binding.generation now
  let binding := { binding with status := { binding.status with
    status := statusStr
    observedGeneration := binding.generation
    conditions := upsertReadyCondition binding.status.conditions newCond } }
  (binding, if statusStr != "Ready" then { requeueAfter := 60 } else { requeueAfter := 0 })

/-- PangolinTunnelReconciler.updateStatus: builds a fresh Ready condition with
`LastTransitionTime = now`, REPLACES the whole condition list with it, and
unconditionally returns `ctrl.Result{RequeueAfter: time.Minute}`. -/
def tunnelUpdateStatus (tunnel : PangolinTunnel) (statusStr message : String)
    (now : Nat) : PangolinTunnel × ReconcileResult :=
  let newCond : MetaCondition :=
    { condType := "Ready"
      status := statusStr == "Ready"
      reason := if statusStr == "Ready" then "ReconcileSuccess" else "ReconcileError"
      message := message
      lastTransitionTime := now
      observedGeneration := tunnel.generation }
  let tunnel := { tunnel with status := { tunnel.status with
    status := statusStr
    observedGeneration := tunnel.generation
    conditions := [newCond] } }
  (tunnel, { requeueAfter := 60 })

/-! ## Organization reconciler -/

/-- The find-first loop over the listed organizations. -/
def findOrgByID : List Organization → String → Option Organization
  | [], _ => none
  | o :: rest, x => if o.orgID == x then some o else findOrgByID rest x

/-- PangolinOrganizationReconciler.reconcileOrganization.  The
list-organizations response is passed in as `listOrgs`. -/
def reconcileOrganization (listOrgs : Except String (List Organization))
    (org : PangolinOrganization) : Except String PangolinOrganization :=
  if org.spec.organizationID != "" then
    match listOrgs with
    | .error e => .error ("failed to list organizations: " ++ e)
    | .ok orgs =>
      match findOrgByID orgs org.spec.organizationID with
      | none => .error ("organization " ++ org.spec.organizationID ++ " not found")
      | some targetOrg =>
        .ok { org with status := { org.status with
          organizationID := targetOrg.orgID
          organizationName := targetOrg.name
          subnet := targetOrg.subnet
          bindingMode := "Bound" } }
  else
    match listOrgs with
    | .error e => .error ("failed to list organizations: " ++ e)
    | .ok orgs =>
      match orgs with
      | [] => .error "no organizations found"
      | o :: _ =>
        .ok { org with status := { org.status with
          organizationID := o.orgID
          organizationName := o.name
          subnet := o.subnet
          bindingMode := "Discovered" } }

/-- First inventory entry whose id matches. -/
def findDomainByID : List Domain → String → Option Domain
  | [], _ => none
  | d :: rest, x => if d.domainID == x then some d else findDomainByID rest x

/-- First inventory entry whose base domain matches. -/
def findDomainByBase : List Domain → String → Option Domain
  | [], _ => none
  | d :: rest, x => if d.baseDomain == x then some d else findDomainByBase rest x

/-- First inventory entry flagged verified (the fallback loop in
reconcileDomains). -/
def firstVerifiedDomain : List Domain → Option Domain
  | [] => none
  | d :: rest => if d.verified then some d else firstVerifiedDomain rest

/-- PangolinOrganizationReconciler.resolveDomainToID: exact id match first,
then exact base-domain match, else an error. -/
def resolveDomainToID (domainInput : String) (domains : List Domain) : Except String String :=
  match findDomainByID domains domainInput with
  | some d => .ok d.domainID
  | none =>
    match findDomainByBase domains domainInput with
    | some d => .ok d.domainID
    | none => .error ("domain " ++ domainInput ++ " not found")

/-- PangolinOrganizationReconciler.reconcileDomains: store the fetched
inventory verbatim, resolve the explicitly configured default-domain selector
(a failed lookup is logged and the reconciliation continues with the previous
value), then fall back to the first verified inventory domain when the
default is still unresolved.  The list-domains response is `listDomains`. -/
def reconcileDomains (listDomains : Except String (List Domain))
    (org : PangolinOrganization) : Except String PangolinOrganization :=
  if org.status.organizationID == "" then
    .error "organization ID not available"
  else
    match listDomains with
    | .error e => .error ("failed to list domains: " ++ e)
    | .ok domains =>
      let org := { org with status := { org.status with domains := domains } }
      let org :=
        match org.spec.defaults with
        | some defaults =>
          if defaults.defaultDomain != "" then
            match resolveDomainToID defaults.defaultDomain domains with
            | .ok defaultDomainID =>
              { org with status := { org.status with defaultDomainID := defaultDomainID } }
            | .error _ => org
          else org
        | none => org
      let org :=
        if org.status.defaultDomainID == "" ∧ domains.length > 0 then
          match firstVerifiedDomain domains with
          | some d => { org with status := { org.status with defaultDomainID := d.domainID } }
          | none => org
        else org
      .ok org

/-! ## Tunnel reconciler -/

/-- PangolinTunnelReconciler.reconcileSite: bind by numeric site id or nice
id when either is set in spec (numeric id wins), otherwise create the site
once (skipped when status already holds a nonzero site id).  The three
possible control-plane responses are passed in as oracles; the issued calls
are returned alongside. -/
def reconcileSite (getByID getByNice createResp : Except String Site) (orgID : String)
    (tunnel : PangolinTunnel) : PangolinTunnel × Except String Site × List ApiCall :=
  if tunnel.spec.siteID.isSome ∨ tunnel.spec.niceID != "" then
    let pair :=
      match tunnel.spec.siteID with
      | some sid => (getByID, ApiCall.getSiteByID sid)
      | none => (getByNice, ApiCall.getSiteByNiceID orgID tunnel.spec.niceID)
    match pair.1 with
    | .error e => (tunnel, .error ("failed to bind to existing site: " ++ e), [pair.2])
    | .ok site =>
      let tunnel := { tunnel with status := { tunnel.status with
        siteID := site.siteID
        niceID := site.niceID
        siteName := site.name
        siteType := site.siteType
        subnet := site.subnet
        address := site.address
        online := site.online
        endpoint := site.endpoint
        bindingMode := "Bound" } }
      (tunnel, .ok site, [pair.2])
  else if tunnel.status.siteID == 0 then
    let call := ApiCall.createSite orgID tunnel.spec.siteName tunnel.spec.siteType
    match createResp with
    | .error e => (tunnel, .error ("failed to create site: " ++ e), [call])
    | .ok site =>
      let tunnel := { tunnel with status := { tunnel.status with
        siteID := site.siteID
        niceID := site.niceID
        siteName := site.name
        siteType := site.siteType
        bindingMode := "Created" } }
      (tunnel, .ok site, [call])
  else
    (tunnel,
     .ok { siteID := tunnel.status.siteID, niceID := tunnel.status.niceID,
           name := tunnel.status.siteName, siteType := "", subnet := "",
           address := "", online := false, endpoint := "" },
     [])

/-! ## Resource reconciler -/

/-- mustParseInt: `strconv.Atoi` with the error ignored (0 on failure). -/
def mustParseInt (s : String) : Int :=
  (s.toInt?).getD 0

/-- Modelled from the spec: `Resource.EffectiveID` (its definition is not
among the provided sources; only its call site is).  The spec says the
returned id is normalized between two possible response field names to one
canonical id: the string `id` when present, else the numeric `resourceId`. -/
def effectiveID (r : Resource) : String :=
  if r.id != "" then r.id
  else if r.resourceID > 0 then toString r.resourceID
  else ""

/-- PangolinResourceReconciler.resolveDomainForResource: priority chain
explicit domain id → explicit domain name → organization default-domain id,
each validated against the cached inventory; on success returns the domain id
and the full hostname `subdomain + "." + baseDomain`. -/
def resolveDomainForResource (httpCfg : HTTPConfig) (org : PangolinOrganization) :
    Except String (String × String) :=
  if httpCfg.domainID != "" then
    let domainID := httpCfg.domainID
    let baseDomain :=
      match findDomainByID org.status.domains domainID with
      | some d => d.baseDomain
      | none => ""
    if baseDomain == "" then
      .error ("domainId " ++ domainID ++ " not found in organization domains")
    else
      .ok (domainID, httpCfg.subdomain ++ "." ++ baseDomain)
  else if httpCfg.domainName != "" then
    let pair :=
      match findDomainByBase org.status.domains httpCfg.domainName with
      | some d => (d.domainID, d.baseDomain)
      | none => ("", "")
    if pair.2 == "" then
      .error ("domainName " ++ httpCfg.domainName ++ " not found in organization domains")
    else
      .ok (pair.1, httpCfg.subdomain ++ "." ++ pair.2)
  else
    if org.status.defaultDomainID == "" then
      .error "no domain specified and no default domain available"
    else
      let domainID := org.status.defaultDomainID
      let baseDomain :=
        match findDomainByID org.status.domains domainID with
        | some d => d.baseDomain
        | none => ""
      if baseDomain == "" then
        .error ("default domainId " ++ domainID ++ " not found in organization domains")
      else
        .ok (domainID, httpCfg.subdomain ++ "." ++ baseDomain)

/-- PangolinResourceReconciler.reconcilePangolinResource: bind to an explicit
spec resource id, else reuse the status resource id, else build the
create-resource spec (domain resolution for http, proxy fields otherwise) and
create once.  Returns the (possibly mutated) object, the pangolin resource or
an error, and the issued calls.  The create-resource response is passed in as
`createResp`. -/
def reconcilePangolinResource (createResp : Except String Resource)
    (orgID siteID : String) (resource : PangolinResource) (org : PangolinOrganization) :
    PangolinResource × Except String Resource × List ApiCall :=
  if resource.spec.resourceID != "" then
    let resource := { resource with status := { resource.status with bindingMode := "Bound" } }
    (resource, .ok { id := resource.spec.resourceID, resourceID := 0, name := resource.spec.name }, [])
  else if resource.status.resourceID != "" then
    let resource := { resource with status := { resource.status with bindingMode := "Created" } }
    (resource, .ok { id := resource.status.resourceID, resourceID := 0, name := resource.spec.name }, [])
  else
    let specResult : PangolinResource × Except String ResourceCreateSpec :=
      if resource.spec.protocol == "http" ∧ resource.spec.httpConfig.isSome then
        let httpCfg := resource.spec.httpConfig.getD { subdomain := "", domainID := "", domainName := "" }
        match resolveDomainForResource httpCfg org with
        | .error e => (resource, .error ("failed to resolve domain: " ++ e))
        | .ok (domainID, fullDomain) =>
          let resource := { resource with status := { resource.status with
            resolvedDomainID := domainID
            fullDomain := fullDomain } }
          (resource, .ok { name := resource.spec.name
                           siteID := mustParseInt siteID
                           http := true
                           protocol := "tcp"
                           subdomain := httpCfg.subdomain
                           domainID := domainID
                           proxyPort := 0
                           enableProxy := false })
      else if resource.spec.proxyConfig.isSome then
        let proxyCfg := resource.spec.proxyConfig.getD { proxyPort := 0, enableProxy := none }
        (resource, .ok { name := resource.spec.name
                         siteID := mustParseInt siteID
                         http := false
                         protocol := resource.spec.protocol
                         subdomain := ""
                         domainID := ""
                         proxyPort := proxyCfg.proxyPort
                         enableProxy := proxyCfg.enableProxy.getD false })
      else
        (resource, .error "invalid resource configuration: must specify either httpConfig or proxyConfig")
    match specResult.2 with
    | .error e => (specResult.1, .error e, [])
    | .ok resSpec =>
      let call := ApiCall.createResource orgID siteID resSpec
      match createResp with
      | .error e => (specResult.1, .error ("failed to create Pangolin resource: " ++ e), [call])
      | .ok pRes =>
        let resource := { specResult.1 with
          status := { specResult.1.status with bindingMode := "Created" } }
        (resource, .ok pRes, [call])

/-- PangolinResourceReconciler.reconcilePangolinTarget: reuse the status
target id when present, else create the target once from the spec's target
configuration.  The create-target response is `createResp`. -/
def reconcilePangolinTarget (createResp : Except String Target) (resourceID : String)
    (resource : PangolinResource) : Except String Target × List ApiCall :=
  if resource.status.targetID != "" then
    (.ok { id := resource.status.targetID, ip := "", port := 0, method := "", enabled := false }, [])
  else
    let tSpec : TargetCreateSpec :=
      { ip := resource.spec.target.ip
        port := resource.spec.target.port
        method := resource.spec.target.method
        enabled := resource.spec.enabled.getD false }
    let call := ApiCall.createTarget resourceID tSpec
    match createResp with
    | .error e => (.error ("failed to create Pangolin target: " ++ e), [call])
    | .ok target => (.ok target, [call])

/-- One convergence pass of PangolinResourceReconciler.Reconcile after the
dependency gates (tunnel and organization fetched and Ready): the id checks,
resource and target reconciliation, and the final status field writes.
Returns the object as passed to `updateResourceStatus`, the status string and
message published, and the issued control-plane calls. -/
def convergeResource (createResourceResp : Except String Resource)
    (createTargetResp : Except String Target) (resource : PangolinResource)
    (tunnel : PangolinTunnel) (org : PangolinOrganization) :
    PangolinResource × String × String × List ApiCall :=
  let orgID := org.status.organizationID
  if orgID == "" then
    (resource, "Error", "Organization missing organization ID", [])
  else if tunnel.status.siteID == 0 then
    (resource, "Error", "Tunnel missing site ID", [])
  else
    let siteID := toString tunnel.status.siteID
    let step1 := reconcilePangolinResource createResourceResp orgID siteID resource org
    let resource := step1.1
    match step1.2.1 with
    | .error e => (resource, "Error", e, step1.2.2)
    | .ok pRes =>
      let rid := effectiveID pRes
      if rid == "" then
        (resource, "Error", "empty resource id after CreateResource", step1.2.2)
      else
        let step2 := reconcilePangolinTarget createTargetResp rid resource
        match step2.1 with
        | .error e => (resource, "Error", e, step1.2.2 ++ step2.2)
        | .ok target =>
          let resource := { resource with status := { resource.status with
            resourceID := rid
            targetID := target.id } }
          let resource :=
            if resource.spec.protocol == "http" ∧ resource.spec.httpConfig.isSome then
              { resource with status := { resource.status with
                url := "https://" ++ resource.status.fullDomain } }
            else if resource.spec.proxyConfig.isSome then
              let proxyCfg := resource.spec.proxyConfig.getD { proxyPort := 0, enableProxy := none }
              { resource with status := { resource.status with
                proxyEndpoint := tunnel.status.endpoint ++ ":" ++ toString proxyCfg.proxyPort } }
            else resource
          (resource, "Ready", "Resource is ready", step1.2.2 ++ step2.2)

/-- The JSON body Client.CreateResource builds: the four common fields always,
`subdomain`/`domainId` only for http (domainId only when non-empty), and
`proxyPort`/`enableProxy` only otherwise.  `none` models an absent key. -/
structure ResourceCreateBody where
  name : String
  siteId : Int
  http : Bool
  protocol : String
  subdomain : Option String
  domainId : Option String
  proxyPort : Option Int
  enableProxy : Option Bool
  deriving DecidableEq

/-- Client.CreateResource's request-body construction. -/
def createResourceBody (spec : ResourceCreateSpec) : ResourceCreateBody :=
  if spec.http then
    { name := spec.name, siteId := spec.siteID, http := spec.http, protocol := spec.protocol
      subdomain := some spec.subdomain
      domainId := if spec.domainID != "" then some spec.domainID else none
      proxyPort := none, enableProxy := none }
  else
    { name := spec.name, siteId := spec.siteID, http := spec.http, protocol := spec.protocol
      subdomain := none, domainId := none
      proxyPort := some spec.proxyPort, enableProxy := some spec.enableProxy }

/-! ## Binding reconciler -/

/-- PangolinBindingReconciler.ensureTunnelForBinding: a tunnel reference is
mandatory; automatic default-tunnel creation is not implemented.  The tunnel
fetch response is `getTunnel`. -/
def ensureTunnelForBinding (getTunnel : Except String PangolinTunnel)
    (binding : PangolinBinding) : Except String PangolinTunnel :=
  match binding.spec.tunnelRef with
  | some ref =>
    match getTunnel with
    | .error e => .error ("failed to get tunnel " ++ ref.name ++ ": " ++ e)
    | .ok tunnel => .ok tunnel
  | none => .error "tunnelRef is required - automatic tunnel creation not yet implemented"

/-- The deterministic child-resource name `fmt.Sprintf("%s-binding",
binding.Name)` used by reconcileResourceForBinding. -/
def generatedResourceName (binding : PangolinBinding) : String :=
  binding.name ++ "-binding"

/-- PangolinBindingReconciler.reconcileResourceForBinding: look up the child
resource under the generated name; reuse it when found, create it when
not found.  `getResource` is the store lookup keyed by name; `createOk` is
the outcome of the Create call.  The returned Bool records whether a Create
call was issued. -/
def reconcileResourceForBinding (getResource : String → GetResult PangolinResource)
    (createOk : Except String Unit) (binding : PangolinBinding)
    (tunnel : PangolinTunnel) (service : Service) :
    Except String PangolinResource × Bool :=
  let resourceName := generatedResourceName binding
  match getResource resourceName with
  | .err e => (.error ("failed to get resource: " ++ e), false)
  | .found resource => (.ok resource, false)
  | .notFound =>
    let resource : PangolinResource :=
      { name := resourceName
        generation := 0
        spec :=
          { tunnelRef := { name := tunnel.name }
            name := binding.spec.serviceRef.name ++ "-" ++ binding.spec.protocol
            protocol := binding.spec.protocol
            resourceID := ""
            httpConfig := none
            proxyConfig := none
            target := { ip := service.clusterIP, port := binding.spec.servicePort, method := "http" }
            enabled := none }
        status :=
          { resourceID := "", targetID := "", bindingMode := "", resolvedDomainID := ""
            fullDomain := "", url := "", proxyEndpoint := "", status := ""
            conditions := [], observedGeneration := 0 } }
    let resource :=
      if binding.spec.protocol == "http" ∧ binding.spec.httpConfig.isSome then
        { resource with spec := { resource.spec with httpConfig := binding.spec.httpConfig } }
      else if binding.spec.proxyConfig.isSome then
        { resource with spec := { resource.spec with proxyConfig := binding.spec.proxyConfig } }
      else resource
    match createOk with
    | .error e => (.error ("failed to create resource: " ++ e), true)
    | .ok _ => (.ok resource, true)

/-- PangolinBindingReconciler.updateServiceEndpoints: read the service's
endpoints and record the flattened address list in status; a fetch error is
returned to the caller (which logs and swallows it). -/
def updateServiceEndpoints (getEndpoints : Except String (List EndpointSubset))
    (binding : PangolinBinding) : Except String PangolinBinding :=
  match getEndpoints with
  | .error e => .error ("failed to get endpoints: " ++ e)
  | .ok subsets =>
    .ok { binding with status := { binding.status with
      serviceEndpoints := (subsets.map (fun s => s.addresses)).flatten } }

/-- The store and call responses a binding reconcile invocation consumes. -/
structure BindingEnv where
  getService : Except String Service
  getOrganization : Except String PangolinOrganization
  getTunnel : Except String PangolinTunnel
  getResource : String → GetResult PangolinResource
  createOk : Except String Unit
  getEndpoints : Except String (List EndpointSubset)
  now : Nat

/-- PangolinBindingReconciler.Reconcile after the finalizer step: gates on
the service, the organization's and the tunnel's readiness, reconciles the
child resource, gates on its readiness, optionally records service
endpoints (failure swallowed), copies the child's outputs, and publishes the
outcome via updateBindingStatus. -/
def bindingReconcile (env : BindingEnv) (binding : PangolinBinding) :
    PangolinBinding × ReconcileResult :=
  match env.getService with
  | .error e => updateBindingStatus binding "Error" ("failed to get service: " ++ e) env.now
  | .ok service =>
    match env.getOrganization with
    | .error e =>
      updateBindingStatus binding "Error"
        ("failed to get organization " ++ binding.spec.organizationRef.name ++ ": " ++ e) env.now
    | .ok org =>
      if org.status.status != "Ready" then
        updateBindingStatus binding "Waiting" "Waiting for organization to be ready" env.now
      else
        match ensureTunnelForBinding env.getTunnel binding with
        | .error e => updateBindingStatus binding "Error" e env.now
        | .ok tunnel =>
          if tunnel.status.status != "Ready" then
            updateBindingStatus binding "Waiting" "Waiting for tunnel to be ready" env.now
          else
            let step := reconcileResourceForBinding env.getResource env.createOk binding tunnel service
            match step.1 with
            | .error e => updateBindingStatus binding "Error" e env.now
            | .ok resource =>
              if resource.status.status != "Ready" then
                updateBindingStatus binding "Waiting" "Waiting for resource to be ready" env.now
              else
                let binding :=
                  if binding.spec.autoUpdateTargets.getD true then
                    match updateServiceEndpoints env.getEndpoints binding with
                    | .error _ => binding
                    | .ok updated => updated
                  else binding
                let binding := { binding with status := { binding.status with
                  generatedResourceName := resource.name
                  url := resource.status.url
                  proxyEndpoint := resource.status.proxyEndpoint } }
                updateBindingStatus binding "Ready" "Binding is ready" env.now

/-! ## Example objects used by witnesses and counterexamples -/

/-- A Ready-type condition with the given boolean status and transition
time. -/
def mkCond (b : Bool) (ltt : Nat) : MetaCondition :=
  { condType := "Ready", status := b, reason := "ReconcileSuccess", message := ""
    lastTransitionTime := ltt, observedGeneration := 0 }

/-- All-zero organization status. -/
def emptyOrgStatus : PangolinOrganizationStatus :=
  { organizationID := "", organizationName := "", subnet := "", bindingMode := ""
    domains := [], defaultDomainID := "", status := "", conditions := []
    observedGeneration := 0 }

/-- All-zero organization object. -/
def emptyOrg : PangolinOrganization :=
  { name := "org", generation := 0
    spec := { organizationID := "", defaults := none }
    status := emptyOrgStatus }

/-- All-zero tunnel status. -/
def emptyTunnelStatus : PangolinTunnelStatus :=
  { siteID := 0, niceID := "", siteName := "", siteType := "", subnet := ""
    address := "", online := false, endpoint := "", bindingMode := "", status := ""
    conditions := [], observedGeneration := 0 }

/-- All-zero tunnel object. -/
def emptyTunnel : PangolinTunnel :=
  { name := "tunnel", generation := 0
    spec := { organizationRef := { name := "org" }, siteName := "", siteType := ""
              siteID := none, niceID := "" }
    status := emptyTunnelStatus }

/-- All-zero resource status. -/
def emptyResourceStatus : PangolinResourceStatus :=
  { resourceID := "", targetID := "", bindingMode := "", resolvedDomainID := ""
    fullDomain := "", url := "", proxyEndpoint := "", status := ""
    conditions := [], observedGeneration := 0 }

/-- All-zero resource object. -/
def emptyResource : PangolinResource :=
  { name := "resource", generation := 0
    spec := { tunnelRef := { name := "tunnel" }, name := "res", protocol := ""
              resourceID := "", httpConfig := none, proxyConfig := none
              target := { ip := "", port := 0, method := "" }, enabled := none }
    status := emptyResourceStatus }

/-- All-zero binding status. -/
def emptyBindingStatus : PangolinBindingStatus :=
  { generatedResourceName := "", url := "", proxyEndpoint := ""
    serviceEndpoints := [], status := "", conditions := [], observedGeneration := 0 }

/-- All-zero binding object. -/
def emptyBinding : PangolinBinding :=
  { name := "binding", generation := 0
    spec := { serviceRef := { name := "svc", namespaceName := "default" }
              organizationRef := { name := "org" }, tunnelRef := none
              protocol := "http", servicePort := 80, httpConfig := none
              proxyConfig := none, autoUpdateTargets := none }
    status := emptyBindingStatus }

/-- Tunnel whose Ready condition is already true with transition time 0. -/
def exTunnelC1 : PangolinTunnel :=
  { emptyTunnel with status := { emptyTunnel.status with
      status := "Ready", conditions := [mkCond true 0] } }

/-- Tunnel used in the C2 counterexample. -/
def exTunnelC2 : PangolinTunnel :=
  { emptyTunnel with status := { emptyTunnel.status with status := "Ready" } }

/-- Organization with a true Ready condition at transition time 3. -/
def exOrgC1 : PangolinOrganization :=
  { emptyOrg with status := { emptyOrg.status with conditions := [mkCond true 3] } }

/-- Resource with a false Ready condition at transition time 4. -/
def exResC1 : PangolinResource :=
  { emptyResource with status := { emptyResource.status with conditions := [mkCond false 4] } }

/-- Binding with a true Ready condition at transition time 5. -/
def exBindC1 : PangolinBinding :=
  { emptyBinding with status := { emptyBinding.status with conditions := [mkCond true 5] } }

/-! ## Lemmas about the shared condition upsert -/

/-- Create-mode tunnel whose status already holds an external site id. -/
def exTunnelC3 : PangolinTunnel :=
  { emptyTunnel with status := { emptyTunnel.status with siteID := 5 } }

/-- Resource whose status already holds an external resource id. -/
def exResC3a : PangolinResource :=
  { emptyResource with status := { emptyResource.status with resourceID := "r1" } }

/-- Resource whose status already holds an external target id. -/
def exResC3b : PangolinResource :=
  { emptyResource with status := { emptyResource.status with targetID := "t1" } }

/-- Resource with an explicit spec resource id "X" differing from the id "Y"
already stored in status. -/
def exResC3x : PangolinResource :=
  { emptyResource with
    spec := { emptyResource.spec with resourceID := "X" }
    status := { emptyResource.status with resourceID := "Y", targetID := "t1" } }

/-- Ready organization with a resolved external organization id. -/
def exOrgReady : PangolinOrganization :=
  { emptyOrg with status := { emptyOrg.status with organizationID := "org1", status := "Ready" } }

/-- Ready tunnel with a nonzero external site id. -/
def exTunnelReady : PangolinTunnel :=
  { emptyTunnel with status := { emptyTunnel.status with
      siteID := 7, status := "Ready", endpoint := "ep" } }

/-- A create-site response used by oracles in witnesses. -/
def exSiteResp : Site :=
  { siteID := 9, niceID := "nice", name := "s", siteType := "newt", subnet := ""
    address := "", online := false, endpoint := "" }

/-- A create-resource response used by oracles in witnesses. -/
def exResourceResp : Resource := { id := "newid", resourceID := 0, name := "r" }

/-- A create-target response used by oracles in witnesses. -/
def exTargetResp : Target := { id := "t9", ip := "", port := 0, method := "", enabled := false }

/-- Verified domain `d1 / a.com` from the spec's example inventory. -/
def exDomA : Domain :=
  { domainID := "d1", baseDomain := "a.com", verified := true, domainType := "ns"
    failed := false, tries := 0, configManaged := false }

/-- Unverified domain `d2 / b.com` from the spec's example inventory. -/
def exDomB : Domain :=
  { domainID := "d2", baseDomain := "b.com", verified := false, domainType := "ns"
    failed := false, tries := 0, configManaged := false }

/-- Organization carrying the spec's example inventory with resolved default
domain `d1`. -/
def exOrgC4 : PangolinOrganization :=
  { emptyOrg with status := { emptyOrg.status with
      organizationID := "org1", domains := [exDomA, exDomB], defaultDomainID := "d1" } }

/-- HTTP config selecting explicit domain id `d2`. -/
def exCfgD2 : HTTPConfig := { subdomain := "app", domainID := "d2", domainName := "" }

/-- HTTP config selecting explicit domain name `a.com`. -/
def exCfgNameA : HTTPConfig := { subdomain := "app", domainID := "", domainName := "a.com" }

/-- HTTP config with no domain selector. -/
def exCfgNone : HTTPConfig := { subdomain := "app", domainID := "", domainName := "" }

/-- HTTP config selecting the unknown domain id `d3`. -/
def exCfgID3 : HTTPConfig := { subdomain := "app", domainID := "d3", domainName := "" }

/-- Create-mode http resource selecting explicit domain id d2. -/
def exResC5 : PangolinResource :=
  { emptyResource with spec := { emptyResource.spec with
      protocol := "http", httpConfig := some exCfgD2 } }

/-- Two control-plane organizations used in witnesses. -/
def exOrgsList : List Organization :=
  [{ orgID := "o1", name := "n1", subnet := "10.0.0.0/24" },
   { orgID := "o2", name := "n2", subnet := "10.0.1.0/24" }]

/-- Organization bound to the explicit external id o2. -/
def exOrgBound : PangolinOrganization :=
  { emptyOrg with spec := { emptyOrg.spec with organizationID := "o2" } }

/-- Organization bound to an id absent from the listing. -/
def exOrgBadBind : PangolinOrganization :=
  { emptyOrg with spec := { emptyOrg.spec with organizationID := "oX" } }

/-- Domain whose base domain collides with another domain's id. -/
def exDomWeird : Domain :=
  { domainID := "w", baseDomain := "d1", verified := false, domainType := "ns"
    failed := false, tries := 0, configManaged := false }

/-- Organization with a configured default-domain selector that resolves to
nothing, and a previously resolved default d1 in status. -/
def exOrgC7 : PangolinOrganization :=
  { emptyOrg with
    spec := { emptyOrg.spec with defaults := some { defaultDomain := "missing.com" } }
    status := { emptyOrg.status with organizationID := "org1", defaultDomainID := "d1" } }

/-- Organization with no selector and no resolved default yet. -/
def exOrgC7b : PangolinOrganization :=
  { emptyOrg with status := { emptyOrg.status with organizationID := "org1" } }

/-- A service with a cluster address. -/
def exService : Service := { clusterIP := "10.0.0.5" }

/-- Binding carrying an explicit tunnel reference (same name as
emptyBinding). -/
def exBindingWithRef : PangolinBinding :=
  { emptyBinding with spec := { emptyBinding.spec with tunnelRef := some { name := "tunnel" } } }

/-- Store lookup that finds an existing child under the generated name. -/
def exGetResource : String → GetResult PangolinResource :=
  fun n => if n == "binding-binding" then .found exResC3a else .notFound

/-- Binding environment whose organization is Ready. -/
def exBindingEnv : BindingEnv :=
  { getService := .ok exService, getOrganization := .ok exOrgReady
    getTunnel := .error "no tunnel", getResource := exGetResource
    createOk := .ok (), getEndpoints := .ok [], now := 0 }

/-- Resource declaring protocol http but carrying only a proxy config. -/
def exResC9 : PangolinResource :=
  { emptyResource with spec := { emptyResource.spec with
      protocol := "http", proxyConfig := some { proxyPort := 5432, enableProxy := some true } } }

/-- Resource declaring protocol http with neither config. -/
def exResC9bad : PangolinResource :=
  { emptyResource with spec := { emptyResource.spec with protocol := "http" } }

/-! ## Theorems -/

/-- The upsert loop's effect on the stored Ready condition: when one exists
its transition time is kept on an unchanged boolean and replaced by the new
condition's on a flip; when none exists the new condition is appended. -/
theorem findCondition_upsertReady (conds : List MetaCondition) (newCond : MetaCondition)
    (h : newCond.condType = "Ready") :
    findCondition (upsertReadyCondition conds newCond) "Ready" =
      some (match findCondition conds "Ready" with
        | none => newCond
        | some c =>
          if c.status != newCond.status then newCond
          else { newCond with lastTransitionTime := c.lastTransitionTime }) := by
  induction conds with
  | nil => simp [upsertReadyCondition, findCondition, h]
  | cons c rest ih =>
    by_cases hc : c.condType = "Ready"
    · by_cases hs : c.status != newCond.status
      · simp [upsertReadyCondition, findCondition, hc, hs, h]
      · simp [upsertReadyCondition, findCondition, hc, hs, h]
    · simp [upsertReadyCondition, findCondition, hc, ih]

/-- C1 (counterexample): the Tunnel reconciler's status writer does not obey
the transition-time discipline.  On a tunnel whose Ready condition is already
true with transition time 0, writing "Ready" again at time 5 keeps the
boolean unchanged yet changes lastTransitionTime, refuting the claim that the
discipline holds for all four reconcilers. -/
theorem c1_counterexample :
    (findCondition (tunnelUpdateStatus exTunnelC1 "Ready" "Tunnel is ready" 5).1.status.conditions
        "Ready").map (fun c => c.status)
      = (findCondition exTunnelC1.status.conditions "Ready").map (fun c => c.status)
    ∧ (findCondition (tunnelUpdateStatus exTunnelC1 "Ready" "Tunnel is ready" 5).1.status.conditions
        "Ready").map (fun c => c.lastTransitionTime)
      ≠ (findCondition exTunnelC1.status.conditions "Ready").map (fun c => c.lastTransitionTime) := by
  exact ⟨rfl, by decide⟩

/-- The upsert keeps the stored Ready condition's transition time when the
boolean status is unchanged and stamps the write time when it flips. -/
theorem upsert_lastTransitionTime (conds : List MetaCondition) (c : MetaCondition)
    (s msg : String) (g : Int) (now : Nat)
    (hc : findCondition conds "Ready" = some c) :
    ∃ c', findCondition (upsertReadyCondition conds (mkReadyCondition s msg g now)) "Ready" = some c'
      ∧ c'.status = (s == "Ready")
      ∧ c'.lastTransitionTime = (if c.status = (s == "Ready") then c.lastTransitionTime else now) := by
  have h := findCondition_upsertReady conds (mkReadyCondition s msg g now) rfl
  rw [hc] at h
  simp only [mkReadyCondition] at h
  by_cases hs : c.status = (s == "Ready")
  · rw [hs] at h
    simp only [bne_self_eq_false, Bool.false_eq_true, if_false] at h
    exact ⟨_, h, rfl, by simp [hs]⟩
  · have hbne : (c.status != (s == "Ready")) = true := by
      simpa [bne_iff_ne] using hs
    simp only [hbne, if_true] at h
    exact ⟨_, h, rfl, by simp [hs]⟩

/-- C1 (amended): the Organization, Resource and Binding status writers obey
the transition-time discipline — the written Ready condition keeps the stored
transition time when the boolean status is unchanged and takes the write's
current time when it flips — while the Tunnel status writer always stamps the
write's current time. -/
theorem c1_transition_time_discipline
    (org : PangolinOrganization) (resource : PangolinResource) (binding : PangolinBinding)
    (tunnel : PangolinTunnel) (co cr cb : MetaCondition) (s msg : String) (now : Nat)
    (ho : findCondition org.status.conditions "Ready" = some co)
    (hr : findCondition resource.status.conditions "Ready" = some cr)
    (hb : findCondition binding.status.conditions "Ready" = some cb) :
    (∃ c', findCondition (updateOrganizationStatus org s msg now).1.status.conditions "Ready" = some c'
        ∧ c'.status = (s == "Ready")
        ∧ c'.lastTransitionTime = (if co.status = (s == "Ready") then co.lastTransitionTime else now))
    ∧ (∃ c', findCondition (updateResourceStatus resource s msg now).1.status.conditions "Ready" = some c'
        ∧ c'.status = (s == "Ready")
        ∧ c'.lastTransitionTime = (if cr.status = (s == "Ready") then cr.lastTransitionTime else now))
    ∧ (∃ c', findCondition (updateBindingStatus binding s msg now).1.status.conditions "Ready" = some c'
        ∧ c'.status = (s == "Ready")
        ∧ c'.lastTransitionTime = (if cb.status = (s == "Ready") then cb.lastTransitionTime else now))
    ∧ (∃ c', findCondition (tunnelUpdateStatus tunnel s msg now).1.status.conditions "Ready" = some c'
        ∧ c'.lastTransitionTime = now) :=
  ⟨upsert_lastTransitionTime org.status.conditions co s msg org.generation now ho,
   upsert_lastTransitionTime resource.status.conditions cr s msg resource.generation now hr,
   upsert_lastTransitionTime binding.status.conditions cb s msg binding.generation now hb,
   ⟨_, rfl, rfl⟩⟩

/-- C1 (witness): the amended theorem applied to concrete objects whose
Ready conditions are stored with transition times 3, 4 and 5. -/
theorem c1_witness :
    ∃ c', findCondition (updateOrganizationStatus exOrgC1 "Ready" "ok" 9).1.status.conditions "Ready" = some c'
      ∧ c'.status = ("Ready" == "Ready")
      ∧ c'.lastTransitionTime
          = (if (mkCond true 3).status = ("Ready" == "Ready") then (mkCond true 3).lastTransitionTime else 9) :=
  (c1_transition_time_discipline exOrgC1 exResC1 exBindC1 exTunnelC1 (mkCond true 3)
    (mkCond false 4) (mkCond true 5) "Ready" "ok" 9 rfl rfl rfl).1

/-- C2 (counterexample): the Tunnel reconciler requeues after one minute even
when it publishes "Ready", refuting the claim that a Ready outcome schedules
no automatic re-check for all four reconcilers. -/
theorem c2_counterexample :
    (tunnelUpdateStatus exTunnelC2 "Ready" "Tunnel is ready" 5).2.requeueAfter ≠ 0 := by
  decide

/-- C2 (amended): the Organization, Resource and Binding reconcilers requeue
after one minute (60 s) on Error and Waiting and return the zero result on
Ready, while the Tunnel reconciler requeues after one minute on every
published status, Ready included. -/
theorem c2_result_policy
    (org : PangolinOrganization) (resource : PangolinResource) (binding : PangolinBinding)
    (tunnel : PangolinTunnel) (msg : String) (now : Nat) (s : String) :
    ((updateOrganizationStatus org "Error" msg now).2.requeueAfter = 60
      ∧ (updateOrganizationStatus org "Waiting" msg now).2.requeueAfter = 60
      ∧ (updateOrganizationStatus org "Ready" msg now).2.requeueAfter = 0)
    ∧ ((updateResourceStatus resource "Error" msg now).2.requeueAfter = 60
      ∧ (updateResourceStatus resource "Waiting" msg now).2.requeueAfter = 60
      ∧ (updateResourceStatus resource "Ready" msg now).2.requeueAfter = 0)
    ∧ ((updateBindingStatus binding "Error" msg now).2.requeueAfter = 60
      ∧ (updateBindingStatus binding "Waiting" msg now).2.requeueAfter = 60
      ∧ (updateBindingStatus binding "Ready" msg now).2.requeueAfter = 0)
    ∧ (tunnelUpdateStatus tunnel s msg now).2.requeueAfter = 60 :=
  ⟨⟨rfl, rfl, rfl⟩, ⟨rfl, rfl, rfl⟩, ⟨rfl, rfl, rfl⟩, rfl⟩

/-- With no bind identifier in spec and a nonzero status site id,
reconcileSite leaves the tunnel untouched and issues no call at all. -/
theorem reconcileSite_skip (gID gNice cSite : Except String Site) (orgID : String)
    (tunnel : PangolinTunnel)
    (h1 : tunnel.spec.siteID = none) (h2 : tunnel.spec.niceID = "")
    (h3 : tunnel.status.siteID ≠ 0) :
    (reconcileSite gID gNice cSite orgID tunnel).1 = tunnel
    ∧ (reconcileSite gID gNice cSite orgID tunnel).2.2 = [] := by
  constructor <;> simp [reconcileSite, h1, h2, h3]

/-- A resource whose spec carries no explicit id but whose status already
holds one takes the already-created branch: no call, binding mode Created,
and the returned pangolin resource carries the stored id. -/
theorem reconcilePangolinResource_already_created (cRes : Except String Resource)
    (orgID siteID : String) (resource : PangolinResource) (org : PangolinOrganization)
    (h4 : resource.spec.resourceID = "") (h5 : resource.status.resourceID ≠ "") :
    reconcilePangolinResource cRes orgID siteID resource org =
      ({ resource with status := { resource.status with bindingMode := "Created" } },
       .ok { id := resource.status.resourceID, resourceID := 0, name := resource.spec.name },
       []) := by
  simp [reconcilePangolinResource, h4, h5]

/-- A resource whose status already holds a target id reuses it without a
call. -/
theorem reconcilePangolinTarget_reuse (cTgt : Except String Target) (resourceID : String)
    (resource : PangolinResource) (h : resource.status.targetID ≠ "") :
    reconcilePangolinTarget cTgt resourceID resource =
      (.ok { id := resource.status.targetID, ip := "", port := 0, method := "", enabled := false },
       []) := by
  simp [reconcilePangolinTarget, h]

/-- Convergence on a resource in create mode whose status already holds an
external resource id issues no create-resource call and keeps the id. -/
theorem convergeResource_keeps_resourceID (cRes : Except String Resource)
    (cTgt : Except String Target) (resource : PangolinResource)
    (tunnel : PangolinTunnel) (org : PangolinOrganization)
    (h4 : resource.spec.resourceID = "") (h5 : resource.status.resourceID ≠ "") :
    (convergeResource cRes cTgt resource tunnel org).1.status.resourceID
      = resource.status.resourceID
    ∧ (convergeResource cRes cTgt resource tunnel org).2.2.2.filter ApiCall.isCreateResource
      = [] := by
  by_cases hOrg : org.status.organizationID = ""
  · constructor <;> simp [convergeResource, hOrg]
  · by_cases hSite : tunnel.status.siteID = 0
    · constructor <;> simp [convergeResource, hOrg, hSite]
    · have hstep := reconcilePangolinResource_already_created cRes org.status.organizationID
        (toString tunnel.status.siteID) resource org h4 h5
      by_cases ht : resource.status.targetID = ""
      · cases cTgt with
        | error e =>
          constructor <;>
            simp [convergeResource, hOrg, hSite, hstep, effectiveID, h5,
              reconcilePangolinTarget, ht, ApiCall.isCreateResource]
        | ok tgt =>
          refine ⟨?_, ?_⟩
          · simp [convergeResource, hOrg, hSite, hstep, effectiveID, h5,
              reconcilePangolinTarget, ht]
            split
            · rfl
            · split <;> rfl
          · simp [convergeResource, hOrg, hSite, hstep, effectiveID, h5,
              reconcilePangolinTarget, ht, ApiCall.isCreateResource]
      · have htgt := reconcilePangolinTarget_reuse cTgt resource.status.resourceID
          { resource with status := { resource.status with bindingMode := "Created" } }
          (by simpa using ht)
        refine ⟨?_, ?_⟩
        · simp [convergeResource, hOrg, hSite, hstep, effectiveID, h5, htgt]
          split
          · rfl
          · split <;> rfl
        · simp [convergeResource, hOrg, hSite, hstep, effectiveID, h5, htgt,
            ApiCall.isCreateResource]

/-- Convergence on a resource whose status already holds an external target
id issues no create-target call and keeps the id, whatever branch the
resource-id resolution takes. -/
theorem convergeResource_keeps_targetID (cRes : Except String Resource)
    (cTgt : Except String Target) (resource : PangolinResource)
    (tunnel : PangolinTunnel) (org : PangolinOrganization)
    (h6 : resource.status.targetID ≠ "") :
    (convergeResource cRes cTgt resource tunnel org).1.status.targetID
      = resource.status.targetID
    ∧ (convergeResource cRes cTgt resource tunnel org).2.2.2.filter ApiCall.isCreateTarget
      = [] := by
  by_cases hOrg : org.status.organizationID = ""
  · constructor <;> simp [convergeResource, hOrg]
  · by_cases hSite : tunnel.status.siteID = 0
    · constructor <;> simp [convergeResource, hOrg, hSite]
    · unfold convergeResource
      simp only [hOrg, hSite, beq_iff_eq, if_false, reduceIte]
      generalize hstep : reconcilePangolinResource cRes org.status.organizationID
        (toString tunnel.status.siteID) resource org = step1
      have hframe : step1.1.status.targetID = resource.status.targetID
          ∧ step1.2.2.filter ApiCall.isCreateTarget = [] := by
        rw [← hstep]
        unfold reconcilePangolinResource
        split
        · constructor <;> simp
        · split
          · constructor <;> simp
          · split
            · rcases hR : resolveDomainForResource
                  (resource.spec.httpConfig.getD { subdomain := "", domainID := "", domainName := "" })
                  org with e | ⟨did, full⟩
              · constructor <;> simp [hR]
              · cases cRes <;> (constructor <;> simp [hR, ApiCall.isCreateTarget])
            · split
              · cases cRes <;> (constructor <;> simp [ApiCall.isCreateTarget])
              · constructor <;> simp
      obtain ⟨hf1, hf2⟩ := hframe
      cases hres : step1.2.1 with
      | error e =>
        refine ⟨?_, ?_⟩
        · simpa [hres] using hf1
        · simpa [hres] using hf2
      | ok pRes =>
        by_cases hrid : effectiveID pRes = ""
        · constructor <;> simp [hres, hrid, hf1, hf2]
        · have htgt := reconcilePangolinTarget_reuse cTgt (effectiveID pRes) step1.1
            (by rw [hf1]; exact h6)
          refine ⟨?_, ?_⟩
          · simp only [hres, hrid, htgt, if_neg, reduceIte]
            split
            · simp [hf1]
            · split <;> simp [hf1]
          · simp [hres, hrid, htgt, hf2]

/-- C3 (counterexample): a resource whose status already holds the non-empty
external id "Y" but whose spec carries the explicit id "X" re-converges with
zero create-resource calls, yet the persisted external id changes to "X" —
refuting the unrestricted claim that the persisted id is left unchanged. -/
theorem c3_counterexample :
    exResC3x.status.resourceID ≠ ""
    ∧ (convergeResource (.ok exResourceResp) (.ok exTargetResp) exResC3x exTunnelReady
        exOrgReady).2.2.2.filter ApiCall.isCreateResource = []
    ∧ (convergeResource (.ok exResourceResp) (.ok exTargetResp) exResC3x exTunnelReady
        exOrgReady).1.status.resourceID ≠ exResC3x.status.resourceID := by
  refine ⟨by decide, rfl, by decide⟩

/-- C3 (amended): idempotent creation, with the resource-id part restricted —
as the tunnel part already is — to create mode (no explicit external id in
spec).  A create-mode tunnel with a nonzero status site id re-converges with
no create-site call and an unchanged site id; a create-mode resource with a
non-empty status resource id re-converges with no create-resource call and an
unchanged resource id; a resource with a non-empty status target id
re-converges with no create-target call and an unchanged target id. -/
theorem c3_idempotent_creation
    (gID gNice cSite : Except String Site) (orgID : String) (tunnel : PangolinTunnel)
    (cRes : Except String Resource) (cTgt : Except String Target)
    (resource1 resource2 : PangolinResource) (tun2 : PangolinTunnel) (org2 : PangolinOrganization)
    (h1 : tunnel.spec.siteID = none) (h2 : tunnel.spec.niceID = "")
    (h3 : tunnel.status.siteID ≠ 0)
    (h4 : resource1.spec.resourceID = "") (h5 : resource1.status.resourceID ≠ "")
    (h6 : resource2.status.targetID ≠ "") :
    ((reconcileSite gID gNice cSite orgID tunnel).1.status.siteID = tunnel.status.siteID
      ∧ (reconcileSite gID gNice cSite orgID tunnel).2.2.filter ApiCall.isCreateSite = [])
    ∧ ((convergeResource cRes cTgt resource1 tun2 org2).1.status.resourceID
        = resource1.status.resourceID
      ∧ (convergeResource cRes cTgt resource1 tun2 org2).2.2.2.filter ApiCall.isCreateResource
        = [])
    ∧ ((convergeResource cRes cTgt resource2 tun2 org2).1.status.targetID
        = resource2.status.targetID
      ∧ (convergeResource cRes cTgt resource2 tun2 org2).2.2.2.filter ApiCall.isCreateTarget
        = []) := by
  have hs := reconcileSite_skip gID gNice cSite orgID tunnel h1 h2 h3
  exact ⟨⟨by rw [hs.1], by rw [hs.2]; rfl⟩,
         convergeResource_keeps_resourceID cRes cTgt resource1 tun2 org2 h4 h5,
         convergeResource_keeps_targetID cRes cTgt resource2 tun2 org2 h6⟩

/-- C3 (witness): the amended theorem applied to a create-mode tunnel whose
status already holds site id 5 and to resources whose statuses already hold
resource id "r1" and target id "t1". -/
theorem c3_witness :
    (reconcileSite (.ok exSiteResp) (.ok exSiteResp) (.ok exSiteResp) "org1"
        exTunnelC3).1.status.siteID = exTunnelC3.status.siteID
    ∧ (reconcileSite (.ok exSiteResp) (.ok exSiteResp) (.ok exSiteResp) "org1"
        exTunnelC3).2.2.filter ApiCall.isCreateSite = [] :=
  (c3_idempotent_creation (.ok exSiteResp) (.ok exSiteResp) (.ok exSiteResp) "org1"
    exTunnelC3 (.ok exResourceResp) (.ok exTargetResp) exResC3a exResC3b exTunnelReady
    exOrgReady rfl rfl (by decide) rfl (by decide) (by decide)).1

/-- When no inventory entry carries the id, the id lookup finds nothing. -/
theorem findDomainByID_eq_none (ds : List Domain) (x : String)
    (h : ∀ d ∈ ds, d.domainID ≠ x) : findDomainByID ds x = none := by
  induction ds with
  | nil => rfl
  | cons d rest ih =>
    have hd := h d (by simp)
    simp only [findDomainByID, beq_iff_eq, hd, if_false, reduceIte]
    exact ih (fun d' hd' => h d' (by simp [hd']))

/-- A successful id lookup returns an inventory entry with that id. -/
theorem findDomainByID_some (ds : List Domain) (x : String) (d : Domain)
    (h : findDomainByID ds x = some d) : d ∈ ds ∧ d.domainID = x := by
  induction ds with
  | nil => simp [findDomainByID] at h
  | cons d0 rest ih =>
    by_cases h0 : d0.domainID = x
    · simp only [findDomainByID, beq_iff_eq, h0, if_true, reduceIte,
        Option.some.injEq] at h
      subst h
      exact ⟨by simp, h0⟩
    · simp only [findDomainByID, beq_iff_eq, h0, if_false, reduceIte] at h
      obtain ⟨hm, hid⟩ := ih h
      exact ⟨by simp [hm], hid⟩

/-- When no inventory entry carries the base domain, the base lookup finds
nothing. -/
theorem findDomainByBase_eq_none (ds : List Domain) (x : String)
    (h : ∀ d ∈ ds, d.baseDomain ≠ x) : findDomainByBase ds x = none := by
  induction ds with
  | nil => rfl
  | cons d rest ih =>
    have hd := h d (by simp)
    simp only [findDomainByBase, beq_iff_eq, hd, if_false, reduceIte]
    exact ih (fun d' hd' => h d' (by simp [hd']))

/-- A successful base lookup returns an inventory entry with that base. -/
theorem findDomainByBase_some (ds : List Domain) (x : String) (d : Domain)
    (h : findDomainByBase ds x = some d) : d ∈ ds ∧ d.baseDomain = x := by
  induction ds with
  | nil => simp [findDomainByBase] at h
  | cons d0 rest ih =>
    by_cases h0 : d0.baseDomain = x
    · simp only [findDomainByBase, beq_iff_eq, h0, if_true, reduceIte,
        Option.some.injEq] at h
      subst h
      exact ⟨by simp, h0⟩
    · simp only [findDomainByBase, beq_iff_eq, h0, if_false, reduceIte] at h
      obtain ⟨hm, hid⟩ := ih h
      exact ⟨by simp [hm], hid⟩

/-- C4: the http domain-resolution priority chain.  An explicit domain id
absent from the inventory, an explicit domain name matching no base domain,
an absent default when neither is given, and a default id absent from the
inventory each yield an Error; every success picks the id dictated by the
priority chain and returns fullHostname = subdomain "." baseDomain of the
matched inventory entry; and the spec's example inventory resolves exactly as
the spec lists. -/
theorem c4_domain_resolution
    (cfg1 cfg2 cfg3 cfg4 cfg5 : HTTPConfig)
    (org1 org2 org3 org4 org5 : PangolinOrganization) (did full : String)
    (h1a : cfg1.domainID ≠ "") (h1b : ∀ d ∈ org1.status.domains, d.domainID ≠ cfg1.domainID)
    (h2a : cfg2.domainID = "") (h2b : cfg2.domainName ≠ "")
    (h2c : ∀ d ∈ org2.status.domains, d.baseDomain ≠ cfg2.domainName)
    (h3a : cfg3.domainID = "") (h3b : cfg3.domainName = "")
    (h3c : org3.status.defaultDomainID = "")
    (h4a : cfg4.domainID = "") (h4b : cfg4.domainName = "")
    (h4c : org4.status.defaultDomainID ≠ "")
    (h4d : ∀ d ∈ org4.status.domains, d.domainID ≠ org4.status.defaultDomainID)
    (h5 : resolveDomainForResource cfg5 org5 = .ok (did, full)) :
    resolveDomainForResource cfg1 org1
      = .error ("domainId " ++ cfg1.domainID ++ " not found in organization domains")
    ∧ resolveDomainForResource cfg2 org2
      = .error ("domainName " ++ cfg2.domainName ++ " not found in organization domains")
    ∧ resolveDomainForResource cfg3 org3
      = .error "no domain specified and no default domain available"
    ∧ resolveDomainForResource cfg4 org4
      = .error ("default domainId " ++ org4.status.defaultDomainID
          ++ " not found in organization domains")
    ∧ ((cfg5.domainID ≠ "" ∧ did = cfg5.domainID
          ∧ ∃ d, d ∈ org5.status.domains ∧ d.domainID = did
            ∧ full = cfg5.subdomain ++ "." ++ d.baseDomain)
       ∨ (cfg5.domainID = "" ∧ cfg5.domainName ≠ ""
          ∧ ∃ d, d ∈ org5.status.domains ∧ d.baseDomain = cfg5.domainName ∧ did = d.domainID
            ∧ full = cfg5.subdomain ++ "." ++ d.baseDomain)
       ∨ (cfg5.domainID = "" ∧ cfg5.domainName = "" ∧ did = org5.status.defaultDomainID
          ∧ ∃ d, d ∈ org5.status.domains ∧ d.domainID = did
            ∧ full = cfg5.subdomain ++ "." ++ d.baseDomain))
    ∧ resolveDomainForResource exCfgD2 exOrgC4 = .ok ("d2", "app.b.com")
    ∧ resolveDomainForResource exCfgNameA exOrgC4 = .ok ("d1", "app.a.com")
    ∧ resolveDomainForResource exCfgNone exOrgC4 = .ok ("d1", "app.a.com")
    ∧ resolveDomainForResource exCfgID3 exOrgC4
      = .error "domainId d3 not found in organization domains" := by
  refine ⟨?_, ?_, ?_, ?_, ?_, rfl, rfl, rfl, rfl⟩
  · have hf := findDomainByID_eq_none org1.status.domains cfg1.domainID h1b
    simp [resolveDomainForResource, h1a, hf]
  · have hf := findDomainByBase_eq_none org2.status.domains cfg2.domainName h2c
    simp [resolveDomainForResource, h2a, h2b, hf]
  · simp [resolveDomainForResource, h3a, h3b, h3c]
  · have hf := findDomainByID_eq_none org4.status.domains org4.status.defaultDomainID h4d
    simp [resolveDomainForResource, h4a, h4b, h4c, hf]
  · by_cases hA : cfg5.domainID = ""
    · by_cases hB : cfg5.domainName = ""
      · refine Or.inr (Or.inr ⟨hA, hB, ?_⟩)
        by_cases hC : org5.status.defaultDomainID = ""
        · simp [resolveDomainForResource, hA, hB, hC] at h5
        · cases hf : findDomainByID org5.status.domains org5.status.defaultDomainID with
          | none => simp [resolveDomainForResource, hA, hB, hC, hf] at h5
          | some d =>
            by_cases hbd : d.baseDomain = ""
            · simp [resolveDomainForResource, hA, hB, hC, hf, hbd] at h5
            · simp only [resolveDomainForResource, hA, hB, hC, hf, beq_iff_eq, hbd,
                if_false, reduceIte, bne_self_eq_false, Bool.false_eq_true,
                Except.ok.injEq, Prod.mk.injEq] at h5
              obtain ⟨hdid, hfull⟩ := h5
              have hmem := findDomainByID_some _ _ _ hf
              exact ⟨hdid.symm, d, hmem.1, by rw [hmem.2, hdid], hfull.symm⟩
      · refine Or.inr (Or.inl ⟨hA, hB, ?_⟩)
        cases hf : findDomainByBase org5.status.domains cfg5.domainName with
        | none => simp [resolveDomainForResource, hA, hB, hf] at h5
        | some d =>
          have hmem := findDomainByBase_some _ _ _ hf
          have hbd : d.baseDomain ≠ "" := by rw [hmem.2]; exact hB
          simp only [resolveDomainForResource, hA, hB, hf, beq_iff_eq, bne_iff_ne,
            ne_eq, hbd, if_false, reduceIte, bne_self_eq_false, Bool.false_eq_true,
            not_false_eq_true, if_true, Except.ok.injEq, Prod.mk.injEq] at h5
          obtain ⟨hdid, hfull⟩ := h5
          exact ⟨d, hmem.1, hmem.2, hdid.symm, hfull.symm⟩
    · refine Or.inl ⟨hA, ?_⟩
      cases hf : findDomainByID org5.status.domains cfg5.domainID with
      | none => simp [resolveDomainForResource, hA, hf] at h5
      | some d =>
        by_cases hbd : d.baseDomain = ""
        · simp [resolveDomainForResource, hA, hf, hbd] at h5
        · simp only [resolveDomainForResource, hA, hf, beq_iff_eq, bne_iff_ne,
            ne_eq, hbd, if_false, reduceIte, bne_self_eq_false, Bool.false_eq_true,
            not_false_eq_true, if_true, Except.ok.injEq, Prod.mk.injEq] at h5
          obtain ⟨hdid, hfull⟩ := h5
          have hmem := findDomainByID_some _ _ _ hf
          exact ⟨hdid.symm, d, hmem.1, by rw [hmem.2, hdid], hfull.symm⟩

/-- C4 (witness): the theorem applied to the spec's example inventory, with
the unknown id `d3`, the unknown name `c.com`, a cleared and an unknown
default, and the successful explicit-id resolution of `d2`. -/
theorem c4_witness :
    resolveDomainForResource exCfgID3 exOrgC4
      = .error ("domainId " ++ exCfgID3.domainID ++ " not found in organization domains") :=
  (c4_domain_resolution exCfgID3
    { subdomain := "app", domainID := "", domainName := "c.com" }
    exCfgNone exCfgNone exCfgD2 exOrgC4 exOrgC4
    { exOrgC4 with status := { exOrgC4.status with defaultDomainID := "" } }
    { exOrgC4 with status := { exOrgC4.status with defaultDomainID := "dX" } }
    exOrgC4 "d2" "app.b.com"
    (by decide) (by decide) rfl (by decide) (by decide) rfl rfl rfl rfl rfl
    (by decide) (by decide) rfl).1

/-- Every successful domain resolution returns a hostname of the shape
subdomain "." base. -/
theorem resolveDomain_ok_shape (cfg : HTTPConfig) (org : PangolinOrganization)
    (did full : String) (h : resolveDomainForResource cfg org = .ok (did, full)) :
    ∃ base, full = cfg.subdomain ++ "." ++ base := by
  by_cases hA : cfg.domainID = ""
  · by_cases hB : cfg.domainName = ""
    · by_cases hC : org.status.defaultDomainID = ""
      · simp [resolveDomainForResource, hA, hB, hC] at h
      · cases hf : findDomainByID org.status.domains org.status.defaultDomainID with
        | none => simp [resolveDomainForResource, hA, hB, hC, hf] at h
        | some d =>
          by_cases hbd : d.baseDomain = ""
          · simp [resolveDomainForResource, hA, hB, hC, hf, hbd] at h
          · simp only [resolveDomainForResource, hA, hB, hC, hf, beq_iff_eq, bne_iff_ne,
              ne_eq, hbd, if_false, reduceIte, bne_self_eq_false, Bool.false_eq_true,
              not_false_eq_true, if_true, Except.ok.injEq, Prod.mk.injEq] at h
            exact ⟨_, h.2.symm⟩
    · cases hf : findDomainByBase org.status.domains cfg.domainName with
      | none => simp [resolveDomainForResource, hA, hB, hf] at h
      | some d =>
        have hmem := findDomainByBase_some _ _ _ hf
        have hbd : d.baseDomain ≠ "" := by rw [hmem.2]; exact hB
        simp only [resolveDomainForResource, hA, hB, hf, beq_iff_eq, bne_iff_ne,
          ne_eq, hbd, if_false, reduceIte, bne_self_eq_false, Bool.false_eq_true,
          not_false_eq_true, if_true, Except.ok.injEq, Prod.mk.injEq] at h
        exact ⟨_, h.2.symm⟩
  · cases hf : findDomainByID org.status.domains cfg.domainID with
    | none => simp [resolveDomainForResource, hA, hf] at h
    | some d =>
      by_cases hbd : d.baseDomain = ""
      · simp [resolveDomainForResource, hA, hf, hbd] at h
      · simp only [resolveDomainForResource, hA, hf, beq_iff_eq, bne_iff_ne,
          ne_eq, hbd, if_false, reduceIte, bne_self_eq_false, Bool.false_eq_true,
          not_false_eq_true, if_true, Except.ok.injEq, Prod.mk.injEq] at h
        exact ⟨_, h.2.symm⟩

/-- On the http create path, reconcilePangolinResource records the resolved
domain in status and issues exactly one create-resource call whose spec
carries protocol "tcp", the configured subdomain and the resolved domain
id. -/
theorem reconcilePangolinResource_http_create (cRes : Except String Resource)
    (orgID siteID : String) (resource : PangolinResource) (org : PangolinOrganization)
    (cfg : HTTPConfig) (did full : String)
    (hp : resource.spec.protocol = "http") (hcfg : resource.spec.httpConfig = some cfg)
    (hspec : resource.spec.resourceID = "") (hstat : resource.status.resourceID = "")
    (hres : resolveDomainForResource cfg org = .ok (did, full)) :
    (reconcilePangolinResource cRes orgID siteID resource org).1.status.resolvedDomainID = did
    ∧ (reconcilePangolinResource cRes orgID siteID resource org).1.status.fullDomain = full
    ∧ (reconcilePangolinResource cRes orgID siteID resource org).2.2
        = [ApiCall.createResource orgID siteID
            { name := resource.spec.name, siteID := mustParseInt siteID, http := true
              protocol := "tcp", subdomain := cfg.subdomain, domainID := did
              proxyPort := 0, enableProxy := false }]
    ∧ (∀ pRes, cRes = .ok pRes →
        (reconcilePangolinResource cRes orgID siteID resource org).2.1 = .ok pRes) := by
  cases cRes with
  | error e =>
    refine ⟨?_, ?_, ?_, ?_⟩ <;>
      simp [reconcilePangolinResource, hp, hcfg, hspec, hstat, hres]
  | ok pRes =>
    refine ⟨?_, ?_, ?_, ?_⟩ <;>
      simp [reconcilePangolinResource, hp, hcfg, hspec, hstat, hres]

/-- C5: an http resource with an HTTP config that reaches the create step
issues exactly one create-resource call carrying protocol "tcp" (the JSON
body likewise), the configured subdomain and the resolved domain id; the
resolved full hostname is subdomain "." base; and when convergence ends
Ready the final status URL is "https://" followed by that hostname. -/
theorem c5_http_create_tcp_and_url (cRes : Except String Resource)
    (cTgt : Except String Target) (resource : PangolinResource)
    (tunnel : PangolinTunnel) (org : PangolinOrganization)
    (cfg : HTTPConfig) (did full : String)
    (hp : resource.spec.protocol = "http") (hcfg : resource.spec.httpConfig = some cfg)
    (hspec : resource.spec.resourceID = "") (hstat : resource.status.resourceID = "")
    (hOrg : org.status.organizationID ≠ "") (hSite : tunnel.status.siteID ≠ 0)
    (hres : resolveDomainForResource cfg org = .ok (did, full)) :
    (convergeResource cRes cTgt resource tunnel org).2.2.2.filter ApiCall.isCreateResource
      = [ApiCall.createResource org.status.organizationID (toString tunnel.status.siteID)
          { name := resource.spec.name, siteID := mustParseInt (toString tunnel.status.siteID)
            http := true, protocol := "tcp", subdomain := cfg.subdomain, domainID := did
            proxyPort := 0, enableProxy := false }]
    ∧ (createResourceBody
        { name := resource.spec.name, siteID := mustParseInt (toString tunnel.status.siteID)
          http := true, protocol := "tcp", subdomain := cfg.subdomain, domainID := did
          proxyPort := 0, enableProxy := false }).protocol = "tcp"
    ∧ (createResourceBody
        { name := resource.spec.name, siteID := mustParseInt (toString tunnel.status.siteID)
          http := true, protocol := "tcp", subdomain := cfg.subdomain, domainID := did
          proxyPort := 0, enableProxy := false }).subdomain = some cfg.subdomain
    ∧ (∃ base, full = cfg.subdomain ++ "." ++ base)
    ∧ ((convergeResource cRes cTgt resource tunnel org).2.1 = "Ready" →
        (convergeResource cRes cTgt resource tunnel org).1.status.url = "https://" ++ full) := by
  have hstep := reconcilePangolinResource_http_create cRes org.status.organizationID
    (toString tunnel.status.siteID) resource org cfg did full hp hcfg hspec hstat hres
  refine ⟨?_, rfl, by simp [createResourceBody], resolveDomain_ok_shape cfg org did full hres, ?_⟩
  · unfold convergeResource
    simp only [hOrg, hSite, beq_iff_eq, reduceIte, if_false]
    cases hr : (reconcilePangolinResource cRes org.status.organizationID
        (toString tunnel.status.siteID) resource org).2.1 with
    | error e => simp [hr, hstep.2.2.1, ApiCall.isCreateResource]
    | ok pRes =>
      by_cases hrid : effectiveID pRes = ""
      · simp [hr, hrid, hstep.2.2.1, ApiCall.isCreateResource]
      · cases ht : (reconcilePangolinTarget cTgt (effectiveID pRes)
            (reconcilePangolinResource cRes org.status.organizationID
              (toString tunnel.status.siteID) resource org).1).1 with
        | error e =>
          have hcalls : (reconcilePangolinTarget cTgt (effectiveID pRes)
              (reconcilePangolinResource cRes org.status.organizationID
                (toString tunnel.status.siteID) resource org).1).2.filter
                ApiCall.isCreateResource = [] := by
            unfold reconcilePangolinTarget
            split
            · simp
            · split <;> simp [ApiCall.isCreateResource]
          simp [hr, hrid, ht, hstep.2.2.1, List.filter_append, hcalls,
            ApiCall.isCreateResource]
        | ok tgt =>
          have hcalls : (reconcilePangolinTarget cTgt (effectiveID pRes)
              (reconcilePangolinResource cRes org.status.organizationID
                (toString tunnel.status.siteID) resource org).1).2.filter
                ApiCall.isCreateResource = [] := by
            unfold reconcilePangolinTarget
            split
            · simp
            · split <;> simp [ApiCall.isCreateResource]
          simp [hr, hrid, ht, hstep.2.2.1, List.filter_append, hcalls,
            ApiCall.isCreateResource]
  · intro hready
    unfold convergeResource at hready ⊢
    simp only [hOrg, hSite, beq_iff_eq, reduceIte, if_false] at hready ⊢
    cases hr : (reconcilePangolinResource cRes org.status.organizationID
        (toString tunnel.status.siteID) resource org).2.1 with
    | error e => simp [hr] at hready
    | ok pRes =>
      by_cases hrid : effectiveID pRes = ""
      · simp [hr, hrid] at hready
      · cases ht : (reconcilePangolinTarget cTgt (effectiveID pRes)
            (reconcilePangolinResource cRes org.status.organizationID
              (toString tunnel.status.siteID) resource org).1).1 with
        | error e => simp [hr, hrid, ht] at hready
        | ok tgt =>
          have hsp : (reconcilePangolinResource cRes org.status.organizationID
              (toString tunnel.status.siteID) resource org).1.spec = resource.spec := by
            cases cRes <;>
              simp [reconcilePangolinResource, hp, hcfg, hspec, hstat, hres]
          simp only [hr, hrid, ht, if_false, reduceIte]
          simp [hsp, hp, hcfg, hstep.2.1]

/-- C5 (witness): the theorem applied to the spec's end-to-end style example
(http resource, subdomain app, domain d2, site 7, org org1). -/
theorem c5_witness :
    (createResourceBody
      { name := exResC5.spec.name
        siteID := mustParseInt (toString exTunnelReady.status.siteID), http := true
        protocol := "tcp", subdomain := exCfgD2.subdomain, domainID := "d2"
        proxyPort := 0, enableProxy := false }).protocol = "tcp" :=
  (c5_http_create_tcp_and_url (.ok exResourceResp) (.ok exTargetResp) exResC5 exTunnelReady
    exOrgC4 exCfgD2 "d2" "app.b.com" rfl rfl rfl rfl (by decide) (by decide) rfl).2.1

/-- When no listed organization carries the id, the lookup finds nothing. -/
theorem findOrgByID_eq_none (orgs : List Organization) (x : String)
    (h : ∀ o ∈ orgs, o.orgID ≠ x) : findOrgByID orgs x = none := by
  induction orgs with
  | nil => rfl
  | cons o rest ih =>
    have ho := h o (by simp)
    simp only [findOrgByID, beq_iff_eq, ho, if_false, reduceIte]
    exact ih (fun o' ho' => h o' (by simp [ho']))

/-- C6: with an explicit external organization id the matching entry's id,
name and subnet are copied into status with binding mode Bound, and a missing
entry is an Error; without one the first listed entry is copied with binding
mode Discovered, and an empty listing is an Error. -/
theorem c6_org_bind_discover
    (o1 o2 o3 o4 : PangolinOrganization) (orgs1 orgs2 : List Organization)
    (t hd : Organization) (rest : List Organization)
    (h1a : o1.spec.organizationID ≠ "")
    (h1b : findOrgByID orgs1 o1.spec.organizationID = some t)
    (h2a : o2.spec.organizationID ≠ "")
    (h2b : ∀ o ∈ orgs2, o.orgID ≠ o2.spec.organizationID)
    (h3 : o3.spec.organizationID = "")
    (h4 : o4.spec.organizationID = "") :
    reconcileOrganization (.ok orgs1) o1
      = .ok { o1 with status := { o1.status with
          organizationID := t.orgID, organizationName := t.name, subnet := t.subnet
          bindingMode := "Bound" } }
    ∧ reconcileOrganization (.ok orgs2) o2
      = .error ("organization " ++ o2.spec.organizationID ++ " not found")
    ∧ reconcileOrganization (.ok []) o3 = .error "no organizations found"
    ∧ reconcileOrganization (.ok (hd :: rest)) o4
      = .ok { o4 with status := { o4.status with
          organizationID := hd.orgID, organizationName := hd.name, subnet := hd.subnet
          bindingMode := "Discovered" } } := by
  have hf := findOrgByID_eq_none orgs2 o2.spec.organizationID h2b
  refine ⟨?_, ?_, ?_, ?_⟩
  · simp [reconcileOrganization, h1a, h1b]
  · simp [reconcileOrganization, h2a, hf]
  · simp [reconcileOrganization, h3]
  · simp [reconcileOrganization, h4]

/-- C6 (witness): the theorem applied to a two-entry listing, binding to o2,
failing to bind to oX, discovering the first entry, and failing on an empty
listing. -/
theorem c6_witness :
    reconcileOrganization (.ok exOrgsList) exOrgBadBind
      = .error ("organization " ++ exOrgBadBind.spec.organizationID ++ " not found") :=
  (c6_org_bind_discover exOrgBound exOrgBadBind emptyOrg emptyOrg exOrgsList exOrgsList
    { orgID := "o2", name := "n2", subnet := "10.0.1.0/24" }
    { orgID := "o1", name := "n1", subnet := "10.0.0.0/24" }
    [{ orgID := "o2", name := "n2", subnet := "10.0.1.0/24" }]
    (by decide) rfl (by decide) (by decide) rfl rfl).2.1

/-- When some inventory entry carries the id, the id lookup finds one with
exactly that id. -/
theorem findDomainByID_of_mem (ds : List Domain) (sel : String)
    (h : ∃ d ∈ ds, d.domainID = sel) :
    ∃ d', findDomainByID ds sel = some d' ∧ d'.domainID = sel := by
  induction ds with
  | nil => simp at h
  | cons d0 rest ih =>
    by_cases h0 : d0.domainID = sel
    · exact ⟨d0, by simp [findDomainByID, h0], h0⟩
    · obtain ⟨d, hd, hid⟩ := h
      rcases List.mem_cons.mp hd with hd0 | hdr
      · exact absurd (hd0 ▸ hid) h0
      · obtain ⟨d', hf, hd'⟩ := ih ⟨d, hdr, hid⟩
        exact ⟨d', by simp [findDomainByID, h0, hf], hd'⟩

/-- An inventory entry carrying the selector as its id makes the id lookup
win: the selector itself is returned. -/
theorem resolveDomainToID_id_match (sel : String) (ds : List Domain)
    (h : ∃ d ∈ ds, d.domainID = sel) : resolveDomainToID sel ds = .ok sel := by
  obtain ⟨d', hf, hd'⟩ := findDomainByID_of_mem ds sel h
  simp [resolveDomainToID, hf, hd']

/-- The fallback loop returns a member flagged verified. -/
theorem firstVerifiedDomain_some (ds : List Domain) (d : Domain)
    (h : firstVerifiedDomain ds = some d) : d ∈ ds ∧ d.verified = true := by
  induction ds with
  | nil => simp [firstVerifiedDomain] at h
  | cons d0 rest ih =>
    by_cases h0 : d0.verified
    · simp only [firstVerifiedDomain, h0, if_true, reduceIte, Option.some.injEq] at h
      subst h
      exact ⟨by simp, h0⟩
    · simp only [firstVerifiedDomain, h0, if_false, reduceIte] at h
      obtain ⟨hm, hv⟩ := ih h
      exact ⟨by simp [hm], hv⟩

/-- C7: the explicit default-domain selector is resolved by exact id match
first and exact base-domain match second, an unresolvable selector is an
error of the lookup only — reconcileDomains still succeeds and keeps the
previously resolved default untouched — and when the default is still
unresolved the first verified inventory domain is taken. -/
theorem c7_default_domain_resolution
    (sel : String) (ds dsB : List Domain) (dB : Domain)
    (org : PangolinOrganization) (dfl : OrganizationDefaults) (dsF : List Domain)
    (org2 : PangolinOrganization) (ds2 : List Domain) (dv : Domain)
    (hid : ∃ d ∈ ds, d.domainID = sel)
    (hB1 : ∀ d ∈ dsB, d.domainID ≠ sel) (hB2 : findDomainByBase dsB sel = some dB)
    (hO : org.status.organizationID ≠ "") (hD : org.spec.defaults = some dfl)
    (hDne : dfl.defaultDomain ≠ "")
    (hF1 : ∀ d ∈ dsF, d.domainID ≠ dfl.defaultDomain)
    (hF2 : ∀ d ∈ dsF, d.baseDomain ≠ dfl.defaultDomain)
    (hOld : org.status.defaultDomainID ≠ "")
    (hO2 : org2.status.organizationID ≠ "") (hD2 : org2.spec.defaults = none)
    (hOld2 : org2.status.defaultDomainID = "")
    (hfv : firstVerifiedDomain ds2 = some dv) :
    resolveDomainToID sel ds = .ok sel
    ∧ resolveDomainToID sel dsB = .ok dB.domainID
    ∧ (∀ sel' ds', (∀ d ∈ ds', d.domainID ≠ sel') → (∀ d ∈ ds', d.baseDomain ≠ sel') →
        resolveDomainToID sel' ds' = .error ("domain " ++ sel' ++ " not found"))
    ∧ reconcileDomains (.ok dsF) org
        = .ok { org with status := { org.status with domains := dsF } }
    ∧ (∃ org', reconcileDomains (.ok ds2) org2 = .ok org'
        ∧ org'.status.defaultDomainID = dv.domainID) := by
  refine ⟨resolveDomainToID_id_match sel ds hid, ?_, ?_, ?_, ?_⟩
  · have hf := findDomainByID_eq_none dsB sel hB1
    simp [resolveDomainToID, hf, hB2]
  · intro sel' ds' h1 h2
    simp [resolveDomainToID, findDomainByID_eq_none ds' sel' h1,
      findDomainByBase_eq_none ds' sel' h2]
  · have herr : resolveDomainToID dfl.defaultDomain dsF
        = .error ("domain " ++ dfl.defaultDomain ++ " not found") := by
      simp [resolveDomainToID, findDomainByID_eq_none dsF _ hF1,
        findDomainByBase_eq_none dsF _ hF2]
    simp [reconcileDomains, hO, hD, hDne, herr, hOld]
  · have hm := firstVerifiedDomain_some ds2 dv hfv
    have hlen : 0 < ds2.length := List.length_pos.mpr (List.ne_nil_of_mem hm.1)
    have heq : reconcileDomains (.ok ds2) org2
        = .ok { org2 with status := { org2.status with
            domains := ds2, defaultDomainID := dv.domainID } } := by
      simp [reconcileDomains, hO2, hD2, hOld2, hfv, hlen]
    exact ⟨_, heq, rfl⟩

/-- C7 (witness): the theorem applied to an unresolvable selector
missing.com over inventory [d1] with stored default d1, and to a no-selector
organization falling back to the first verified domain. -/
theorem c7_witness :
    ∃ org', reconcileDomains (.ok [exDomB, exDomA]) exOrgC7b = .ok org'
      ∧ org'.status.defaultDomainID = exDomA.domainID :=
  (c7_default_domain_resolution "d1" [exDomA] [exDomWeird] exDomWeird exOrgC7
    { defaultDomain := "missing.com" } [exDomA] exOrgC7b [exDomB, exDomA] exDomA
    ⟨exDomA, by simp, rfl⟩ (by decide) rfl (by decide) rfl (by decide)
    (by decide) (by decide) (by decide) (by decide) rfl rfl rfl).2.2.2.2

/-- C8: a binding without a tunnel reference publishes an Error once the
service and the Ready organization gates pass (no default tunnel is
created); the generated child-resource name depends only on the binding's
name; and a lookup that finds the child under that name returns it with no
Create call issued. -/
theorem c8_binding_tunnel_and_child
    (env : BindingEnv) (binding : PangolinBinding) (service : Service)
    (org : PangolinOrganization) (r : PangolinResource)
    (getR : String → GetResult PangolinResource) (createOk : Except String Unit)
    (b2 : PangolinBinding) (t : PangolinTunnel) (s : Service)
    (h1 : env.getService = .ok service) (h2 : env.getOrganization = .ok org)
    (h3 : org.status.status = "Ready") (h4 : binding.spec.tunnelRef = none)
    (h5 : binding.name = b2.name)
    (h6 : getR (generatedResourceName b2) = .found r) :
    (bindingReconcile env binding).1.status.status = "Error"
    ∧ generatedResourceName binding = generatedResourceName b2
    ∧ reconcileResourceForBinding getR createOk b2 t s = (.ok r, false) := by
  refine ⟨?_, ?_, ?_⟩
  · simp [bindingReconcile, h1, h2, h3, ensureTunnelForBinding, h4, updateBindingStatus]
  · simp [generatedResourceName, h5]
  · simp [reconcileResourceForBinding, h6]

/-- C8 (witness): the theorem applied to a binding without tunnel reference
in a Ready-organization environment, and a sibling with a reference whose
child binding-binding already exists. -/
theorem c8_witness :
    (bindingReconcile exBindingEnv emptyBinding).1.status.status = "Error" :=
  (c8_binding_tunnel_and_child exBindingEnv emptyBinding exService exOrgReady exResC3a
    exGetResource (.ok ()) exBindingWithRef emptyTunnel exService
    rfl rfl rfl rfl rfl rfl).1

/-- C9: an http resource without an HTTP config but with a proxy config is
not rejected — domain resolution is skipped and one create-resource call is
built from the proxy config with HTTP=false and the protocol string "http"
passed through verbatim into the JSON body; the invalid-configuration error
fires only when both configs are absent. -/
theorem c9_http_proxy_passthrough (cRes : Except String Resource) (orgID siteID : String)
    (resource resource2 : PangolinResource) (org : PangolinOrganization) (pc : ProxyConfig)
    (hp : resource.spec.protocol = "http") (hcfg : resource.spec.httpConfig = none)
    (hpc : resource.spec.proxyConfig = some pc)
    (hspec : resource.spec.resourceID = "") (hstat : resource.status.resourceID = "")
    (hp2 : resource2.spec.protocol = "http") (hcfg2 : resource2.spec.httpConfig = none)
    (hpc2 : resource2.spec.proxyConfig = none)
    (hspec2 : resource2.spec.resourceID = "") (hstat2 : resource2.status.resourceID = "") :
    (reconcilePangolinResource cRes orgID siteID resource org).2.2
      = [ApiCall.createResource orgID siteID
          { name := resource.spec.name, siteID := mustParseInt siteID, http := false
            protocol := "http", subdomain := "", domainID := ""
            proxyPort := pc.proxyPort, enableProxy := pc.enableProxy.getD false }]
    ∧ (reconcilePangolinResource cRes orgID siteID resource org).1.status.resolvedDomainID
        = resource.status.resolvedDomainID
    ∧ (reconcilePangolinResource cRes orgID siteID resource org).1.status.fullDomain
        = resource.status.fullDomain
    ∧ (∀ pRes, cRes = .ok pRes →
        (reconcilePangolinResource cRes orgID siteID resource org).2.1 = .ok pRes)
    ∧ (createResourceBody
        { name := resource.spec.name, siteID := mustParseInt siteID, http := false
          protocol := "http", subdomain := "", domainID := ""
          proxyPort := pc.proxyPort, enableProxy := pc.enableProxy.getD false }).protocol
        = "http"
    ∧ (createResourceBody
        { name := resource.spec.name, siteID := mustParseInt siteID, http := false
          protocol := "http", subdomain := "", domainID := ""
          proxyPort := pc.proxyPort, enableProxy := pc.enableProxy.getD false }).http
        = false
    ∧ (createResourceBody
        { name := resource.spec.name, siteID := mustParseInt siteID, http := false
          protocol := "http", subdomain := "", domainID := ""
          proxyPort := pc.proxyPort, enableProxy := pc.enableProxy.getD false }).proxyPort
        = some pc.proxyPort
    ∧ reconcilePangolinResource cRes orgID siteID resource2 org
      = (resource2,
         .error "invalid resource configuration: must specify either httpConfig or proxyConfig",
         []) := by
  refine ⟨?_, ?_, ?_, ?_, rfl, rfl, rfl, ?_⟩
  · cases cRes <;>
      simp [reconcilePangolinResource, hp, hcfg, hpc, hspec, hstat]
  · cases cRes <;>
      simp [reconcilePangolinResource, hp, hcfg, hpc, hspec, hstat]
  · cases cRes <;>
      simp [reconcilePangolinResource, hp, hcfg, hpc, hspec, hstat]
  · intro pRes hok
    subst hok
    simp [reconcilePangolinResource, hp, hcfg, hpc, hspec, hstat]
  · simp [reconcilePangolinResource, hp2, hcfg2, hpc2, hspec2, hstat2]

/-- C9 (witness): the theorem applied to an http resource with proxy port
5432 and to one with neither config. -/
theorem c9_witness :
    reconcilePangolinResource (.ok exResourceResp) "org1" "7" exResC9bad exOrgReady
      = (exResC9bad,
         .error "invalid resource configuration: must specify either httpConfig or proxyConfig",
         []) :=
  (c9_http_proxy_passthrough (.ok exResourceResp) "org1" "7" exResC9 exResC9bad exOrgReady
    { proxyPort := 5432, enableProxy := some true }
    rfl rfl rfl rfl rfl rfl rfl rfl rfl rfl).2.2.2.2.2.2.2

/-- When some inventory entry carries the base domain, the base lookup finds
one with exactly that base. -/
theorem findDomainByBase_of_mem (ds : List Domain) (sel : String)
    (h : ∃ d ∈ ds, d.baseDomain = sel) :
    ∃ d', findDomainByBase ds sel = some d' ∧ d'.baseDomain = sel := by
  induction ds with
  | nil => simp at h
  | cons d0 rest ih =>
    by_cases h0 : d0.baseDomain = sel
    · exact ⟨d0, by simp [findDomainByBase, h0], h0⟩
    · obtain ⟨d, hd, hid⟩ := h
      rcases List.mem_cons.mp hd with hd0 | hdr
      · exact absurd (hd0 ▸ hid) h0
      · obtain ⟨d', hf, hd'⟩ := ih ⟨d, hdr, hid⟩
        exact ⟨d', by simp [findDomainByBase, h0, hf], hd'⟩

/-- Re-flagging verified does not change the id lookup beyond the flag. -/
theorem findDomainByID_reflag (ds : List Domain) (sel : String) (f : Domain → Bool) :
    findDomainByID (ds.map (fun d => { d with verified := f d })) sel
      = (findDomainByID ds sel).map (fun d => { d with verified := f d }) := by
  induction ds with
  | nil => rfl
  | cons d0 rest ih =>
    by_cases h0 : d0.domainID = sel
    · simp [findDomainByID, h0]
    · simp [findDomainByID, h0, ih]

/-- Re-flagging verified does not change the base lookup beyond the flag. -/
theorem findDomainByBase_reflag (ds : List Domain) (sel : String) (f : Domain → Bool) :
    findDomainByBase (ds.map (fun d => { d with verified := f d })) sel
      = (findDomainByBase ds sel).map (fun d => { d with verified := f d }) := by
  induction ds with
  | nil => rfl
  | cons d0 rest ih =>
    by_cases h0 : d0.baseDomain = sel
    · simp [findDomainByBase, h0]
    · simp [findDomainByBase, h0, ih]

/-- C10: the explicit selector lookup ignores the verified flag — its result
is invariant under arbitrary re-flagging, and any id or base match yields a
successful resolution with no verified requirement — while the fallback path
only ever selects a verified domain and selects none when no verified domain
exists. -/
theorem c10_verified_flag_roles
    (sel : String) (ds : List Domain) (f : Domain → Bool)
    (org2 : PangolinOrganization) (ds2 : List Domain)
    (hO2 : org2.status.organizationID ≠ "") (hD2 : org2.spec.defaults = none)
    (hOld2 : org2.status.defaultDomainID = "") :
    resolveDomainToID sel (ds.map (fun d => { d with verified := f d }))
      = resolveDomainToID sel ds
    ∧ (∀ sel' ds' d, d ∈ ds' → (d.domainID = sel' ∨ d.baseDomain = sel') →
        ∃ r, resolveDomainToID sel' ds' = .ok r)
    ∧ (∃ org', reconcileDomains (.ok ds2) org2 = .ok org'
        ∧ ((∀ d ∈ ds2, d.verified = false) → org'.status.defaultDomainID = "")
        ∧ (org'.status.defaultDomainID ≠ "" →
            ∃ d ∈ ds2, d.verified = true ∧ org'.status.defaultDomainID = d.domainID)) := by
  refine ⟨?_, ?_, ?_⟩
  · unfold resolveDomainToID
    rw [findDomainByID_reflag, findDomainByBase_reflag]
    cases findDomainByID ds sel with
    | some d => rfl
    | none => cases findDomainByBase ds sel with
      | some d => rfl
      | none => rfl
  · intro sel' ds' d hmem hsel
    rcases hsel with hsel | hsel
    · obtain ⟨d', hf, hd'⟩ := findDomainByID_of_mem ds' sel' ⟨d, hmem, hsel⟩
      exact ⟨sel', by simp [resolveDomainToID, hf, hd']⟩
    · cases hf : findDomainByID ds' sel' with
      | some d' => exact ⟨d'.domainID, by simp [resolveDomainToID, hf]⟩
      | none =>
        obtain ⟨d', hfb, hd'⟩ := findDomainByBase_of_mem ds' sel' ⟨d, hmem, hsel⟩
        exact ⟨d'.domainID, by simp [resolveDomainToID, hf, hfb]⟩
  · cases hfv : firstVerifiedDomain ds2 with
    | none =>
      by_cases hlen : 0 < ds2.length
      · have heq : reconcileDomains (.ok ds2) org2
            = .ok { org2 with status := { org2.status with domains := ds2 } } := by
          simp [reconcileDomains, hO2, hD2, hOld2, hlen, hfv]
        exact ⟨_, heq, fun _ => hOld2, fun hne => absurd hOld2 hne⟩
      · have heq : reconcileDomains (.ok ds2) org2
            = .ok { org2 with status := { org2.status with domains := ds2 } } := by
          simp [reconcileDomains, hO2, hD2, hOld2, hlen]
        exact ⟨_, heq, fun _ => hOld2, fun hne => absurd hOld2 hne⟩
    | some dv =>
      have hm := firstVerifiedDomain_some ds2 dv hfv
      have hlen : 0 < ds2.length := List.length_pos.mpr (List.ne_nil_of_mem hm.1)
      have heq : reconcileDomains (.ok ds2) org2
          = .ok { org2 with status := { org2.status with
              domains := ds2, defaultDomainID := dv.domainID } } := by
        simp [reconcileDomains, hO2, hD2, hOld2, hfv, hlen]
      refine ⟨_, heq, ?_, ?_⟩
      · intro hall
        exact absurd hm.2 (by simp [hall dv hm.1])
      · exact fun _ => ⟨dv, hm.1, hm.2, rfl⟩

/-- C10 (witness): the theorem applied to an inventory holding only the
unverified domain d2: the fallback selects no default. -/
theorem c10_witness :
    ∃ org', reconcileDomains (.ok [exDomB]) exOrgC7b = .ok org'
      ∧ ((∀ d ∈ [exDomB], d.verified = false) → org'.status.defaultDomainID = "")
      ∧ (org'.status.defaultDomainID ≠ "" →
          ∃ d ∈ [exDomB], d.verified = true ∧ org'.status.defaultDomainID = d.domainID) :=
  (c10_verified_flag_roles "x" [exDomA] (fun _ => false) exOrgC7b [exDomB]
    (by decide) rfl rfl).2.2

end Pangolin
